import Mathlib

/-!
Verification development for the Flask receipt generator (`src/app.py`).

The PDF rendering route `receipt_pdf`, the `create` route, the `preview`
route and the `setup_post` route are shallowly embedded as pure Lean
functions.  Machine floats of the source are modelled as exact rationals,
SQLAlchemy nullable columns as `Option String` / `Option Int`, and the
Flask request/response cycle as explicit arguments and an explicit
`Response` result type.  The reportlab serializer (`doc.build`) is outside
this repository; it is modelled as a deterministic byte encoding of the
page setup and the element list handed to it.
-/

namespace ReceiptApp

/-- A timestamp value (`datetime` in the source); `created_at` of a receipt. -/
structure PyDateTime where
  year : Nat
  month : Nat
  day : Nat
  hour : Nat
  minute : Nat
  second : Nat
deriving DecidableEq

/-- A fixed timestamp used to instantiate clock parameters in examples. -/
def epoch : PyDateTime := ⟨1970, 1, 1, 0, 0, 0⟩

/-- The `receipts` table row (src/app.py lines 47-72).  Nullable columns are
`Option`; `Float` columns are modelled as exact rationals. -/
structure Receipt where
  id : Int
  org_name : String
  org_address : Option String
  org_phone : Option String
  org_email : Option String
  registration_no : Option String
  name : String
  guardian : Option String
  address : Option String
  gender : Option String
  age : Option Int
  phone : Option String
  consultant : Option String
  item_desc : String
  amount : ℚ
  paid_amount : ℚ
  created_at : PyDateTime
deriving DecidableEq

/-- Python truthiness of an optional string column: `None` and `""` are falsy. -/
def pyTruthy (o : Option String) : Bool :=
  match o with
  | none => false
  | some s => !s.isEmpty

/-- Python `x or "-"` on an optional string column (src/app.py lines 205, 218-223). -/
def orDash (o : Option String) : String :=
  match o with
  | none => "-"
  | some s => if s.isEmpty then "-" else s

/-- Python `x or ""` on an optional string column (src/app.py line 196). -/
def pyOrEmpty (o : Option String) : String :=
  match o with
  | none => ""
  | some s => s

/-- Python `str(r.age) if r.age is not None else "-"` (src/app.py line 220). -/
def ageCell (o : Option Int) : String :=
  match o with
  | some a => toString a
  | none => "-"

/-- ASCII whitespace recognised by the model of Python `str.strip()`.
(Python strips all Unicode whitespace; the sources only ever produce these.) -/
def isPySpace (c : Char) : Bool :=
  c = ' ' || c = '\t' || c = '\n' || c = '\r' || c = '\x0b' || c = '\x0c'

/-- Model of Python `str.strip()`: drop whitespace from both ends. -/
def stripStr (s : String) : String :=
  String.mk (((s.data.dropWhile isPySpace).reverse.dropWhile isPySpace).reverse)

/-- Whether a string carries no leading/trailing whitespace (so `strip` fixes it).
Values saved by `setup_post` are always of this form (src/app.py lines 96-99). -/
def trimmed (s : String) : Bool :=
  (s.data.dropWhile isPySpace == s.data) &&
    (s.data.reverse.dropWhile isPySpace == s.data.reverse)

/-- Model of Python `" ".join(...)` on a list of strings. -/
def joinSpace : List String → String
  | [] => ""
  | [s] => s
  | s :: t :: rest => s ++ " " ++ joinSpace (t :: rest)

/-- Model of Python `"<br/>".join(...)` on a list of strings. -/
def joinBr : List String → String
  | [] => ""
  | [s] => s
  | s :: t :: rest => s ++ "<br/>" ++ joinBr (t :: rest)

/-- Numeric value of a list of ASCII digit characters, most significant first. -/
def digitsVal (cs : List Char) : Nat :=
  cs.foldl (fun a c => a * 10 + (c.toNat - 48)) 0

/-- Model of Python `int(str)` (src/app.py lines 127-129): optional surrounding
whitespace, an optional sign, then one or more ASCII digits.  (Python also
accepts underscores between digits and non-ASCII digits; such inputs are
outside this model.) -/
def pyIntParse (s : String) : Option Int :=
  let t := ((s.data.dropWhile isPySpace).reverse.dropWhile isPySpace).reverse
  match t with
  | [] => none
  | '-' :: rest =>
      if !rest.isEmpty && rest.all Char.isDigit then some (-(digitsVal rest : Int)) else none
  | '+' :: rest =>
      if !rest.isEmpty && rest.all Char.isDigit then some ((digitsVal rest : Int)) else none
  | l => if l.all Char.isDigit then some ((digitsVal l : Int)) else none

/-- Unsigned mantissa of a Python float literal: digits with an optional point
on either side, at least one digit overall. -/
def parseUMantissa (cs : List Char) : Option ℚ :=
  match cs.splitOn '.' with
  | [ds] => if !ds.isEmpty && ds.all Char.isDigit then some ((digitsVal ds : ℚ)) else none
  | [ip, fp] =>
      if ip.isEmpty && fp.isEmpty then none
      else if ip.all Char.isDigit && fp.all Char.isDigit then
        some ((digitsVal ip : ℚ) + (digitsVal fp : ℚ) / ((10 : ℚ) ^ fp.length))
      else none
  | _ => none

/-- Signed decimal exponent of a Python float literal. -/
def parseExp (cs : List Char) : Option Int :=
  match cs with
  | '-' :: rest =>
      if !rest.isEmpty && rest.all Char.isDigit then some (-(digitsVal rest : Int)) else none
  | '+' :: rest =>
      if !rest.isEmpty && rest.all Char.isDigit then some ((digitsVal rest : Int)) else none
  | l => if !l.isEmpty && l.all Char.isDigit then some ((digitsVal l : Int)) else none

/-- Model of Python `float(str)` (src/app.py lines 124-126) restricted to finite
decimal literals: optional whitespace, optional sign, digits with optional
point, optional exponent.  (`inf`/`nan` and underscore separators are outside
this model.) -/
def pyFloatParse (s : String) : Option ℚ :=
  let t := ((s.data.dropWhile isPySpace).reverse.dropWhile isPySpace).reverse
  let sgn : ℚ := match t with
    | '-' :: _ => -1
    | _ => 1
  let body : List Char := match t with
    | '-' :: rest => rest
    | '+' :: rest => rest
    | _ => t
  match (body.map Char.toLower).splitOn 'e' with
  | [m] => (parseUMantissa m).map (fun v => sgn * v)
  | [m, ex] =>
      match parseUMantissa m, parseExp ex with
      | some v, some e => some (sgn * v * (10 : ℚ) ^ e)
      | _, _ => none
  | _ => none

/-- Model of to_float applied to `form.get(key, 0)` (src/app.py lines 124-126 with the
call sites at lines 150-151): a missing key yields `float(0) = 0.0`, a present
value falls back to `0.0` when `float()` raises. -/
def to_float (v : Option String) : ℚ :=
  match v with
  | none => 0
  | some s => (pyFloatParse s).getD 0

/-- Model of to_int applied to `form.get("age")` (src/app.py lines 127-129 with the
call site at line 144): a missing key or an unparsable value yields `None`. -/
def to_int (v : Option String) : Option Int :=
  v.bind pyIntParse

/-- Round the fraction `num / den` (with `den > 0`) to the nearest integer,
ties to even — the rounding used by Python float formatting on values that
are exact at the tie.  Carried out on the numerator/denominator pair in pure
integer arithmetic so that it is kernel-computable. -/
def roundHalfEven (num den : Int) : Int :=
  let f := num.fdiv den
  let r := num - f * den
  if 2 * r < den then f
  else if den < 2 * r then f + 1
  else if f % 2 = 0 then f else f + 1

/-- Decimal digit characters of `n`, via an explicit fuel argument so that the
definition is structural (hence kernel-computable); `fuel = n` always
suffices. -/
def natToDecimalAux : Nat → Nat → List Char
  | 0, _ => []
  | fuel + 1, n =>
      if n = 0 then []
      else natToDecimalAux fuel (n / 10) ++ [Char.ofNat (48 + n % 10)]

/-- Decimal digit characters of a natural number, most significant first. -/
def natToDecimal (n : Nat) : List Char :=
  if n = 0 then ['0'] else natToDecimalAux n n

/-- Insert `','` after every third character of a reversed digit list; working
on the reversed list makes the grouping start from the least significant
digit, as the format spec `,` requires. -/
def groupRev : List Char → List Char
  | [] => []
  | [a] => [a]
  | [a, b] => [a, b]
  | [a, b, c] => [a, b, c]
  | a :: b :: c :: d :: rest => a :: b :: c :: ',' :: groupRev (d :: rest)

/-- Comma-group a digit list in threes from the right. -/
def commaGroup (ds : List Char) : List Char :=
  (groupRev ds.reverse).reverse

/-- Chunks of at most three characters, used to characterise `groupRev`. -/
def chunk3 : List Char → List (List Char)
  | [] => []
  | [a] => [[a]]
  | [a, b] => [[a, b]]
  | [a, b, c] => [[a, b, c]]
  | a :: b :: c :: d :: rest => [a, b, c] :: chunk3 (d :: rest)

/-- Join character chunks with a single `','` between consecutive chunks. -/
def joinComma : List (List Char) → List Char
  | [] => []
  | [p] => p
  | p :: q :: rest => p ++ ',' :: joinComma (q :: rest)

/-- The two fractional digit characters of a two-decimal rendering of `k < 100`. -/
def frac2 (k : Nat) : List Char :=
  [Char.ofNat (48 + k / 10 % 10), Char.ofNat (48 + k % 10)]

/-- Model of the Python format spec `,.2f` (src/app.py lines 231 and 237) on an
exact decimal amount: round half-to-even at two decimals, group the integer
digits in threes with commas, always emit exactly two fractional digits.
(On a machine float, Python rounds the exact binary value; the two coincide on
amounts that are exactly representable, which covers every value this
development evaluates.)  `q * 100` is taken as the unreduced fraction
`100 * q.num / q.den`, which rounds identically. -/
def fmtComma2 (q : ℚ) : String :=
  let n : Int := roundHalfEven (100 * q.num) (q.den : Int)
  let m : Nat := n.natAbs
  let body : List Char := commaGroup (natToDecimal (m / 100)) ++ '.' :: frac2 (m % 100)
  String.mk (if n < 0 then '-' :: body else body)

/-- The output shape demanded by the spec's numeric formatting rule: integer
digits grouped in runs of at most three separated by commas — every run after
the first exactly three long — then a point and exactly two fractional digits,
and nothing else (in particular no currency prefix). -/
def groupedTwoDecimals (s : String) : Prop :=
  ∃ (parts : List (List Char)) (f₁ f₂ : Char),
    s = String.mk (joinComma parts ++ '.' :: [f₁, f₂]) ∧
    parts ≠ [] ∧
    (∀ p ∈ parts, p ≠ [] ∧ p.length ≤ 3 ∧ ∀ c ∈ p, c.isDigit = true) ∧
    (∀ p ∈ parts.tail, p.length = 3) ∧
    f₁.isDigit = true ∧ f₂.isDigit = true

/-- Zero-pad to two digits, as `%m %d %H %M` of `strftime` do. -/
def pad2 (n : Nat) : String :=
  if n < 10 then "0" ++ toString n else toString n

/-- Zero-pad to four digits, as `%Y` of `strftime` does for common years. -/
def pad4 (n : Nat) : String :=
  if n < 10 then "000" ++ toString n
  else if n < 100 then "00" ++ toString n
  else if n < 1000 then "0" ++ toString n
  else toString n

/-- Model of `created_at.strftime("%Y-%m-%d %H:%M")` (src/app.py line 204). -/
def strftimeYmdHM (t : PyDateTime) : String :=
  pad4 t.year ++ "-" ++ pad2 t.month ++ "-" ++ pad2 t.day ++ " "
    ++ pad2 t.hour ++ ":" ++ pad2 t.minute

/-- The reportlab unit `mm` (72 points per inch, 25.4 mm per inch). -/
def mm : ℚ := 72 / (254 / 10)

/-- A cell range of a reportlab `TableStyle` command: start (col, row) and end
(col, row), where `-1` counts from the end. -/
structure CellRange where
  c0 : Int
  r0 : Int
  c1 : Int
  r1 : Int
deriving DecidableEq

/-- The reportlab `TableStyle` commands used by the source. -/
inductive StyleCmd where
  | box (rg : CellRange) (weight : ℚ) (color : String)
  | innergrid (rg : CellRange) (weight : ℚ) (color : String)
  | valign (rg : CellRange) (v : String)
  | background (rg : CellRange) (color : String)
  | align (rg : CellRange) (a : String)
  | fontsize (rg : CellRange) (size : Nat)
deriving DecidableEq

/-- Whether a style command is a `VALIGN` command. -/
def StyleCmd.isValign : StyleCmd → Bool
  | .valign _ _ => true
  | _ => false

/-- Whether a style command is a `BOX` command. -/
def StyleCmd.isBox : StyleCmd → Bool
  | .box _ _ _ => true
  | _ => false

/-- Whether a style command is an `INNERGRID` command. -/
def StyleCmd.isInnerGrid : StyleCmd → Bool
  | .innergrid _ _ _ => true
  | _ => false

/-- The reportlab platypus flowables used by the source: paragraphs (with their
sample-stylesheet style name), spacers, and tables with column widths
(`None` = flexible) and a style command list. -/
inductive Elem where
  | para (text : String) (style : String)
  | spacer (w : Nat) (h : Nat)
  | table (rows : List (List String)) (colWidths : List (Option ℚ)) (style : List StyleCmd)
deriving DecidableEq

/-- All strings rendered into the document by an element. -/
def elemTexts : Elem → List String
  | .para t _ => [t]
  | .spacer _ _ => []
  | .table rows _ _ => rows.flatten

/-- All strings rendered into the document by an element list. -/
def allTexts (es : List Elem) : List String :=
  (es.map elemTexts).flatten

/-- The page setup of `SimpleDocTemplate` (src/app.py lines 186-188). -/
structure DocTemplate where
  pagesize : ℚ × ℚ
  rightMargin : ℚ
  leftMargin : ℚ
  topMargin : ℚ
  bottomMargin : ℚ
deriving DecidableEq

/-- The reportlab A4 page size: 210 mm by 297 mm, in points. -/
def A4 : ℚ × ℚ := (210 * mm, 297 * mm)

/-- The document template the source builds: A4, 24-point uniform margins. -/
def docTemplate : DocTemplate := ⟨A4, 24, 24, 24, 24⟩

/-- Textual encoding of a cell range, used by the serializer model. -/
def encodeRange (rg : CellRange) : String :=
  toString rg.c0 ++ "," ++ toString rg.r0 ++ "," ++ toString rg.c1 ++ "," ++ toString rg.r1

/-- Textual encoding of a rational, used by the serializer model. -/
def encodeQ (q : ℚ) : String :=
  toString q.num ++ "/" ++ toString q.den

/-- Textual encoding of a style command, used by the serializer model. -/
def encodeStyle : StyleCmd → String
  | .box rg w c => "BOX " ++ encodeRange rg ++ " " ++ encodeQ w ++ " " ++ c
  | .innergrid rg w c => "INNERGRID " ++ encodeRange rg ++ " " ++ encodeQ w ++ " " ++ c
  | .valign rg v => "VALIGN " ++ encodeRange rg ++ " " ++ v
  | .background rg c => "BACKGROUND " ++ encodeRange rg ++ " " ++ c
  | .align rg a => "ALIGN " ++ encodeRange rg ++ " " ++ a
  | .fontsize rg n => "FONTSIZE " ++ encodeRange rg ++ " " ++ toString n

/-- Textual encoding of a column width, used by the serializer model. -/
def encodeWidth : Option ℚ → String
  | none => "None"
  | some w => encodeQ w

/-- Textual encoding of a flowable, used by the serializer model. -/
def encodeElem : Elem → String
  | .para t s => "Para(" ++ s ++ ")" ++ t
  | .spacer w h => "Spacer " ++ toString w ++ " " ++ toString h
  | .table rows widths style =>
      "Table(" ++ String.intercalate ";" (rows.map (String.intercalate "|"))
        ++ ")(" ++ String.intercalate "," (widths.map encodeWidth)
        ++ ")(" ++ String.intercalate ";" (style.map encodeStyle) ++ ")"

/-- Model of `doc.build(elems)` followed by reading the buffer back
(src/app.py lines 185-188, 243-244).  reportlab is outside this repository;
its serializer is modelled as a deterministic byte encoding of the page setup
and the element list, headed by the `%` byte of the PDF signature. -/
def buildPDF (d : DocTemplate) (es : List Elem) : List Nat :=
  37 :: (("PDF " ++ encodeQ d.pagesize.1 ++ " " ++ encodeQ d.pagesize.2 ++ " "
    ++ encodeQ d.rightMargin ++ " " ++ encodeQ d.leftMargin ++ " "
    ++ encodeQ d.topMargin ++ " " ++ encodeQ d.bottomMargin ++ "\n"
    ++ String.intercalate "\n" (es.map encodeElem)).data.map Char.toNat)

/-- The document meta table rows (src/app.py lines 203-206). -/
def metaTableRows (r : Receipt) : List (List String) :=
  [["Receipt Date", strftimeYmdHM r.created_at],
   ["Registration No.", orDash r.registration_no]]

/-- The document meta table style (src/app.py lines 208-212). -/
def metaTableStyle : List StyleCmd :=
  [.box ⟨0, 0, -1, -1⟩ (0.4 : ℚ) "black",
   .innergrid ⟨0, 0, -1, -1⟩ (0.25 : ℚ) "grey",
   .valign ⟨0, 0, -1, -1⟩ "MIDDLE"]

/-- The client details table rows (src/app.py lines 216-224). -/
def clientTableRows (r : Receipt) : List (List String) :=
  [["Name", r.name],
   ["Guardian", orDash r.guardian],
   ["Gender", orDash r.gender],
   ["Age", ageCell r.age],
   ["Address", orDash r.address],
   ["Phone", orDash r.phone],
   ["Consultant", orDash r.consultant]]

/-- The client details table style (src/app.py line 226). -/
def clientTableStyle : List StyleCmd :=
  [.box ⟨0, 0, -1, -1⟩ (0.5 : ℚ) "black",
   .innergrid ⟨0, 0, -1, -1⟩ (0.25 : ℚ) "grey",
   .valign ⟨0, 0, -1, -1⟩ "TOP"]

/-- The line-item table rows (src/app.py lines 230-231). -/
def lineItemRows (r : Receipt) : List (List String) :=
  [["Sl. No", "Particulars", "Amount (INR)"],
   ["1", r.item_desc, fmtComma2 r.amount]]

/-- The line-item table style (src/app.py line 233). -/
def lineItemTableStyle : List StyleCmd :=
  [.box ⟨0, 0, -1, -1⟩ (0.7 : ℚ) "black",
   .innergrid ⟨0, 0, -1, -1⟩ (0.25 : ℚ) "grey",
   .background ⟨0, 0, -1, 0⟩ "lightgrey",
   .align ⟨2, 1, 2, -1⟩ "RIGHT"]

/-- The totals block rows (src/app.py line 237). -/
def totalsRows (r : Receipt) : List (List String) :=
  [["Paid Amount", "INR " ++ fmtComma2 r.paid_amount]]

/-- The totals block style (src/app.py line 239). -/
def totalsTableStyle : List StyleCmd :=
  [.align ⟨1, 0, 1, -1⟩ "RIGHT",
   .fontsize ⟨0, 0, -1, -1⟩ 12]

/-- The two candidate contact strings, non-empty ones kept
(src/app.py line 196, the generator inside the join). -/
def contactCandidates (r : Receipt) : List String :=
  [pyOrEmpty r.org_phone, pyOrEmpty r.org_email].filter (fun x => !x.isEmpty)

/-- The contact line (src/app.py line 196): space-join of the non-empty entries
of phone and email, then stripped. -/
def contactLine (r : Receipt) : String :=
  stripStr (joinSpace (contactCandidates r))

/-- The lines of the optional organization meta paragraph
(src/app.py lines 194-197): the address with newlines turned into `<br/>` when
truthy, then the contact line when non-empty. -/
def orgMetaLines (r : Receipt) : List String :=
  (if pyTruthy r.org_address
     then [(pyOrEmpty r.org_address).replace "\n" "<br/>"] else [])
  ++ (if (contactLine r).isEmpty then [] else [contactLine r])

/-- The optional organization meta paragraph (src/app.py lines 198-199): the
lines joined with `<br/>`, omitted entirely when there are no lines. -/
def orgMetaParagraph (r : Receipt) : Option Elem :=
  match orgMetaLines r with
  | [] => none
  | ls => some (.para (joinBr ls) "Normal")

/-- The flowable list the source hands to `doc.build`
(src/app.py lines 190-241), in order: title paragraph, optional organization
meta paragraph, spacer, meta table, spacer, client table, spacer, line-item
table, spacer, totals block, spacer, footer note. -/
def renderElems (r : Receipt) : List Elem :=
  [Elem.para ("<b>" ++ r.org_name ++ "</b>") "Title"]
  ++ (orgMetaParagraph r).toList
  ++ [Elem.spacer 1 8,
      Elem.table (metaTableRows r) [some (40 * mm), none] metaTableStyle,
      Elem.spacer 1 10,
      Elem.table (clientTableRows r) [some (35 * mm), none] clientTableStyle,
      Elem.spacer 1 12,
      Elem.table (lineItemRows r) [some (20 * mm), none, some (40 * mm)] lineItemTableStyle,
      Elem.spacer 1 6,
      Elem.table (totalsRows r) [none, some (55 * mm)] totalsTableStyle,
      Elem.spacer 1 14,
      Elem.para "This is a computer generated receipt." "Italic"]

/-- The outcomes a handler can produce: a redirect carrying flashed messages
(message, category), a streamed file, or a rendered template page. -/
inductive Response where
  | redirect (endpoint : String) (flashes : List (String × String))
  | file (bytes : List Nat) (downloadName : String) (mimetype : String)
  | page (template : String)
deriving DecidableEq

/-- Whether a response streams a file. -/
def Response.isFile : Response → Bool
  | .file _ _ _ => true
  | _ => false

/-- The bytes a response delivers (empty unless it streams a file). -/
def Response.bytes : Response → List Nat
  | .file b _ _ => b
  | _ => []

/-- Route `GET /receipt/<rid>/pdf` (src/app.py lines 175-245).  `lookup` is the
record store (`db.get`), `now` is the ambient wall clock available to the
handler — the body never reads it: the only timestamp used is
`r.created_at` (line 204). -/
def receipt_pdfAt (_now : PyDateTime) (lookup : Int → Option Receipt) (rid : Int) : Response :=
  match lookup rid with
  | none => .redirect "index" [("Receipt not found.", "error")]
  | some r =>
      .file (buildPDF docTemplate (renderElems r))
        ("receipt_" ++ toString r.id ++ ".pdf") "application/pdf"

/-- Route `GET /receipt/<rid>/pdf` at a fixed clock. -/
def receipt_pdf : (Int → Option Receipt) → Int → Response :=
  receipt_pdfAt epoch

/-- Route `GET /receipt/<rid>` (src/app.py lines 165-173). -/
def preview (lookup : Int → Option Receipt) (rid : Int) : Response :=
  match lookup rid with
  | none => .redirect "index" [("Receipt not found.", "error")]
  | some _ => .page "receipt.html"

/-- The configuration dictionary loaded from `config.json`: a string-keyed
string map; the empty dictionary means "not configured yet". -/
structure Config where
  entries : List (String × String)
deriving DecidableEq

/-- Python `cfg.get(k)`: the value at `k`, or `None`. -/
def Config.get (c : Config) (k : String) : Option String :=
  (c.entries.find? (fun e => e.1 == k)).map (fun e => e.2)

/-- The outcomes of the `create` route. -/
inductive CreateResult where
  | redirectSetup
  | redirectIndex (flash : String)
  | saved (r : Receipt) (flash : String)
deriving DecidableEq

/-- The `Receipt(...)` constructed by `create` (src/app.py lines 131-152):
organization fields snapshotted from the configuration, client fields read
from the form, numeric fields through `to_float` / `to_int`.  `newId` and
`now` stand for the store-assigned primary key and the `created_at`
default. -/
def builtReceipt (cfg : Config) (form : String → Option String)
    (newId : Int) (now : PyDateTime) : Receipt :=
  { id := newId
    org_name := (cfg.get "org_name").getD ""
    org_address := cfg.get "org_address"
    org_phone := cfg.get "org_phone"
    org_email := cfg.get "org_email"
    registration_no := form "registration_no"
    name := stripStr ((form "name").getD "")
    guardian := form "guardian"
    address := form "address"
    gender := form "gender"
    age := to_int (form "age")
    phone := form "phone"
    consultant := form "consultant"
    item_desc := (form "item_desc").getD "Consultation Fees"
    amount := to_float (form "amount")
    paid_amount := to_float (form "paid_amount")
    created_at := now }

/-- Route `POST /create` (src/app.py lines 116-163): redirect to setup when
unconfigured, reject an empty (stripped) name, otherwise save the built
receipt and flash success. -/
def create (cfg : Config) (form : String → Option String)
    (newId : Int) (now : PyDateTime) : CreateResult :=
  if cfg.entries.isEmpty then .redirectSetup
  else
    let r := builtReceipt cfg form newId now
    if r.name.isEmpty then .redirectIndex "Name is required."
    else .saved r "Receipt saved."

/-- The outcomes of the `setup_post` route. -/
inductive SetupResult where
  | redirectSetupError (flash : String)
  | saved (cfg : Config) (flash : String)
deriving DecidableEq

/-- Route `POST /setup` (src/app.py lines 92-106): build the stripped
configuration, reject an empty organization name, otherwise save it. -/
def setup_post (form : String → Option String) : SetupResult :=
  let cfg : Config :=
    ⟨[("org_name", stripStr ((form "org_name").getD "")),
      ("org_address", stripStr ((form "org_address").getD "")),
      ("org_phone", stripStr ((form "org_phone").getD "")),
      ("org_email", stripStr ((form "org_email").getD ""))]⟩
  if (stripStr ((form "org_name").getD "")).isEmpty
    then .redirectSetupError "Organization/Clinic name is required."
  else .saved cfg "Organization settings saved."

/-- A stored record whose organization name and client name are both empty. -/
def rNoName : Receipt :=
  { id := 7, org_name := "", org_address := none, org_phone := none,
    org_email := none, registration_no := none, name := "", guardian := none,
    address := none, gender := none, age := none, phone := none,
    consultant := none, item_desc := "Consultation Fees", amount := 0,
    paid_amount := 0, created_at := ⟨2024, 1, 2, 3, 4, 0⟩ }

/-- A stored record with every client field set and every organization
optional field unset. -/
def rOrgUnset : Receipt :=
  { id := 2, org_name := "City Clinic", org_address := none, org_phone := none,
    org_email := none, registration_no := some "R1", name := "Asha Rao",
    guardian := some "G Rao", address := some "12 MG Road",
    gender := some "F", age := some 34, phone := some "9876543210",
    consultant := some "Dr X", item_desc := "Consultation Fees",
    amount := 500, paid_amount := 500, created_at := ⟨2024, 1, 2, 3, 4, 0⟩ }

/-- A stored record with every optional field unset. -/
def rAllUnset : Receipt :=
  { id := 3, org_name := "City Clinic", org_address := none, org_phone := none,
    org_email := none, registration_no := none, name := "Asha Rao",
    guardian := none, address := none, gender := none, age := none,
    phone := none, consultant := none, item_desc := "Consultation Fees",
    amount := 500, paid_amount := 500, created_at := ⟨2024, 1, 2, 3, 4, 0⟩ }

/-- A stored record with the organization contact fields populated. -/
def rOrgSet : Receipt :=
  { id := 4, org_name := "City Clinic", org_address := some "12 MG Road\nCity",
    org_phone := some "9876543210", org_email := some "clinic@example.com",
    registration_no := none, name := "Asha Rao", guardian := none,
    address := none, gender := none, age := none, phone := none,
    consultant := none, item_desc := "Consultation Fees",
    amount := 500, paid_amount := 500, created_at := ⟨2024, 1, 2, 3, 4, 0⟩ }

/-- A configured organization profile. -/
def cfgEx : Config := ⟨[("org_name", "City Clinic")]⟩

/-- A form submission carrying a negative age. -/
def formNegAge : String → Option String := fun k =>
  if k = "name" then some "Bob"
  else if k = "age" then some "-5"
  else none

/-- A form submission whose numeric fields all fail to parse. -/
def formBadNums : String → Option String := fun k =>
  if k = "name" then some "Bob"
  else if k = "age" then some "old"
  else if k = "amount" then some "abc"
  else if k = "paid_amount" then some "12,5"
  else none

/-! Helper lemmas about the formatting model. -/

theorem digit_isDigit : ∀ d : Nat, d < 10 → (Char.ofNat (48 + d)).isDigit = true := by
  decide

theorem natToDecimalAux_digits :
    ∀ (fuel n : Nat), ∀ c ∈ natToDecimalAux fuel n, c.isDigit = true := by
  intro fuel
  induction fuel with
  | zero => intro n c hc; simp [natToDecimalAux] at hc
  | succ k ih =>
    intro n c hc
    simp only [natToDecimalAux] at hc
    split at hc
    · simp at hc
    · rcases List.mem_append.1 hc with h | h
      · exact ih _ _ h
      · simp only [List.mem_singleton] at h
        subst h
        exact digit_isDigit _ (Nat.mod_lt _ (by norm_num))

theorem natToDecimal_digits (n : Nat) : ∀ c ∈ natToDecimal n, c.isDigit = true := by
  intro c hc
  unfold natToDecimal at hc
  split at hc
  · simp only [List.mem_singleton] at hc
    subst hc
    decide
  · exact natToDecimalAux_digits _ _ _ hc

theorem natToDecimal_ne_nil (n : Nat) : natToDecimal n ≠ [] := by
  unfold natToDecimal
  split
  · simp
  · next h =>
    cases n with
    | zero => exact absurd rfl h
    | succ m => simp [natToDecimalAux]

theorem chunk3_ne_nil : ∀ (a : Char) (l : List Char), chunk3 (a :: l) ≠ []
  | _, [] => by simp [chunk3]
  | _, [_] => by simp [chunk3]
  | _, [_, _] => by simp [chunk3]
  | _, _ :: _ :: _ :: _ => by simp [chunk3]

theorem chunk3_mem_shape : ∀ (l : List Char), ∀ p ∈ chunk3 l, p ≠ [] ∧ p.length ≤ 3
  | [], p, hp => by simp [chunk3] at hp
  | [a], p, hp => by
      simp [chunk3] at hp
      subst hp
      exact ⟨by simp, by simp⟩
  | [a, b], p, hp => by
      simp [chunk3] at hp
      subst hp
      exact ⟨by simp, by simp⟩
  | [a, b, c], p, hp => by
      simp [chunk3] at hp
      subst hp
      exact ⟨by simp, by simp⟩
  | a :: b :: c :: d :: rest, p, hp => by
      simp only [chunk3, List.mem_cons] at hp
      rcases hp with h | h
      · subst h
        exact ⟨by simp, by simp⟩
      · exact chunk3_mem_shape (d :: rest) p h

theorem chunk3_mem_mem : ∀ (l p : List Char), p ∈ chunk3 l → ∀ c ∈ p, c ∈ l
  | [], p, hp => by simp [chunk3] at hp
  | [a], p, hp => by
      simp [chunk3] at hp
      subst hp
      simp
  | [a, b], p, hp => by
      simp [chunk3] at hp
      subst hp
      simp
  | [a, b, c], p, hp => by
      simp [chunk3] at hp
      subst hp
      simp
  | a :: b :: c :: d :: rest, p, hp => by
      simp only [chunk3, List.mem_cons] at hp
      rcases hp with h | h
      · subst h
        intro x hx
        simp only [List.mem_cons] at hx ⊢
        tauto
      · intro x hx
        have := chunk3_mem_mem (d :: rest) p h x hx
        simp only [List.mem_cons] at this ⊢
        tauto

theorem chunk3_dropLast_len : ∀ (l : List Char), ∀ p ∈ (chunk3 l).dropLast, p.length = 3
  | [], p, hp => by simp [chunk3] at hp
  | [a], p, hp => by simp [chunk3] at hp
  | [a, b], p, hp => by simp [chunk3] at hp
  | [a, b, c], p, hp => by simp [chunk3] at hp
  | a :: b :: c :: d :: rest, p, hp => by
      obtain ⟨q, qs, hq⟩ := List.exists_cons_of_ne_nil (chunk3_ne_nil d rest)
      simp only [chunk3] at hp
      rw [hq] at hp
      simp only [List.dropLast, List.mem_cons] at hp
      rcases hp with h | h
      · subst h; rfl
      · exact chunk3_dropLast_len (d :: rest) p (by rw [hq]; simpa [List.dropLast] using h)

theorem joinComma_cons (p : List Char) (ps : List (List Char)) (h : ps ≠ []) :
    joinComma (p :: ps) = p ++ ',' :: joinComma ps := by
  obtain ⟨q, qs, rfl⟩ := List.exists_cons_of_ne_nil h
  rfl

theorem groupRev_eq : ∀ l : List Char, groupRev l = joinComma (chunk3 l)
  | [] => rfl
  | [_] => rfl
  | [_, _] => rfl
  | [_, _, _] => rfl
  | a :: b :: c :: d :: rest => by
      have ih := groupRev_eq (d :: rest)
      simp only [groupRev, chunk3]
      rw [joinComma_cons _ _ (chunk3_ne_nil d rest), ← ih]
      rfl

theorem joinComma_concat : ∀ (ps : List (List Char)) (x : List Char), ps ≠ [] →
    joinComma (ps ++ [x]) = joinComma ps ++ ',' :: x
  | [], x, h => absurd rfl h
  | [p], x, _ => rfl
  | p :: q :: rest, x, _ => by
      have ih := joinComma_concat (q :: rest) x (by simp)
      simp only [List.cons_append] at ih ⊢
      simp only [joinComma]
      rw [ih]
      simp

theorem joinComma_reverse : ∀ ps : List (List Char),
    (joinComma ps).reverse = joinComma (ps.reverse.map List.reverse)
  | [] => rfl
  | [p] => by simp [joinComma]
  | p :: q :: rest => by
      have ih := joinComma_reverse (q :: rest)
      have hne : ((q :: rest).reverse.map List.reverse) ≠ [] := by simp
      have hstep : joinComma (p :: q :: rest) = p ++ ',' :: joinComma (q :: rest) := rfl
      rw [hstep, List.reverse_append, List.reverse_cons, List.reverse_cons, List.map_append]
      simp only [List.map_cons, List.map_nil]
      rw [joinComma_concat _ _ hne, ← ih]
      simp

theorem map_tail_eq {α β : Type} (f : α → β) (l : List α) :
    (l.map f).tail = l.tail.map f := by
  cases l <;> rfl

theorem tail_reverse_eq {α : Type} (l : List α) : l.reverse.tail = l.dropLast.reverse := by
  induction l using List.reverseRecOn with
  | nil => rfl
  | append_singleton xs x ih => simp

theorem commaGroup_shape (ds : List Char) (h0 : ds ≠ []) (hd : ∀ c ∈ ds, c.isDigit = true) :
    ∃ parts : List (List Char),
      commaGroup ds = joinComma parts ∧ parts ≠ [] ∧
      (∀ p ∈ parts, p ≠ [] ∧ p.length ≤ 3 ∧ ∀ c ∈ p, c.isDigit = true) ∧
      (∀ p ∈ parts.tail, p.length = 3) := by
  refine ⟨(chunk3 ds.reverse).reverse.map List.reverse, ?_, ?_, ?_, ?_⟩
  · unfold commaGroup
    rw [groupRev_eq, joinComma_reverse]
  · have hrev : ds.reverse ≠ [] := by simpa using h0
    obtain ⟨a, t, ha⟩ := List.exists_cons_of_ne_nil hrev
    rw [ha]
    simpa using chunk3_ne_nil a t
  · intro p hp
    rw [List.mem_map] at hp
    obtain ⟨q, hq, rfl⟩ := hp
    rw [List.mem_reverse] at hq
    obtain ⟨hqne, hqlen⟩ := chunk3_mem_shape ds.reverse q hq
    refine ⟨by simpa using hqne, by simpa using hqlen, ?_⟩
    intro c hc
    rw [List.mem_reverse] at hc
    have hmem := chunk3_mem_mem ds.reverse q hq c hc
    rw [List.mem_reverse] at hmem
    exact hd c hmem
  · intro p hp
    rw [map_tail_eq, List.mem_map] at hp
    obtain ⟨q, hq, rfl⟩ := hp
    rw [tail_reverse_eq, List.mem_reverse] at hq
    simpa using chunk3_dropLast_len ds.reverse q hq

theorem fmt_n_nonneg (q : ℚ) (hq : 0 ≤ q) :
    0 ≤ roundHalfEven (100 * q.num) (q.den : Int) := by
  have hnum : 0 ≤ q.num := Rat.num_nonneg.mpr hq
  have hden : (0 : Int) ≤ (q.den : Int) := Int.ofNat_nonneg _
  have hf : 0 ≤ (100 * q.num).fdiv (q.den : Int) :=
    Int.fdiv_nonneg (by positivity) hden
  simp only [roundHalfEven]
  split_ifs <;> omega

theorem fmtComma2_grouped (q : ℚ) (hq : 0 ≤ q) : groupedTwoDecimals (fmtComma2 q) := by
  have hn : 0 ≤ roundHalfEven (100 * q.num) (q.den : Int) := fmt_n_nonneg q hq
  obtain ⟨parts, hcg, hne, hall, htail⟩ :=
    commaGroup_shape (natToDecimal ((roundHalfEven (100 * q.num) (q.den : Int)).natAbs / 100))
      (natToDecimal_ne_nil _) (natToDecimal_digits _)
  refine ⟨parts,
    Char.ofNat (48 + (roundHalfEven (100 * q.num) (q.den : Int)).natAbs % 100 / 10 % 10),
    Char.ofNat (48 + (roundHalfEven (100 * q.num) (q.den : Int)).natAbs % 100 % 10),
    ?_, hne, hall, htail,
    digit_isDigit _ (Nat.mod_lt _ (by norm_num)),
    digit_isDigit _ (Nat.mod_lt _ (by norm_num))⟩
  simp only [fmtComma2]
  rw [if_neg (by omega), hcg]
  rfl

/-! Helper lemmas about stripping, truthiness and placeholders. -/

theorem trimmed_iff (s : String) :
    trimmed s = true ↔
      s.data.dropWhile isPySpace = s.data ∧
        s.data.reverse.dropWhile isPySpace = s.data.reverse := by
  unfold trimmed
  rw [Bool.and_eq_true, beq_iff_eq, beq_iff_eq]

theorem dropWhile_ne_of_fix {xs : List Char} (hx : xs ≠ [])
    (hfix : xs.dropWhile isPySpace = xs) :
    ∃ c rest, xs = c :: rest ∧ isPySpace c = false := by
  obtain ⟨c, rest, rfl⟩ := List.exists_cons_of_ne_nil hx
  refine ⟨c, rest, rfl, ?_⟩
  by_contra h
  have hc : isPySpace c = true := by simpa using h
  rw [List.dropWhile_cons, if_pos hc] at hfix
  have hlen := congrArg List.length hfix
  have hle := (List.dropWhile_suffix (l := rest) isPySpace).length_le
  simp only [List.length_cons] at hlen
  omega

theorem dropWhile_eq_self_append (xs ys : List Char) (hx : xs ≠ [])
    (hfix : xs.dropWhile isPySpace = xs) :
    (xs ++ ys).dropWhile isPySpace = xs ++ ys := by
  obtain ⟨c, rest, rfl, hc⟩ := dropWhile_ne_of_fix hx hfix
  simp [List.dropWhile_cons, hc]

theorem stripStr_of_trimmed (s : String) (h : trimmed s = true) : stripStr s = s := by
  obtain ⟨h1, h2⟩ := (trimmed_iff s).1 h
  unfold stripStr
  rw [h1, h2, List.reverse_reverse]

theorem data_ne_nil_of_not_isEmpty (s : String) (h : s.isEmpty = false) : s.data ≠ [] := by
  intro hd
  obtain ⟨d⟩ := s
  simp only at hd
  subst hd
  exact absurd h (by decide)

theorem stripStr_append_pair (p e : String) (hp : trimmed p = true) (he : trimmed e = true)
    (hpne : p.data ≠ []) (hene : e.data ≠ []) :
    stripStr (p ++ " " ++ e) = p ++ " " ++ e := by
  obtain ⟨h1p, _⟩ := (trimmed_iff p).1 hp
  obtain ⟨_, h2e⟩ := (trimmed_iff e).1 he
  have hdata : (p ++ " " ++ e).data = p.data ++ ' ' :: e.data := by
    simp
  have hrev : (p.data ++ ' ' :: e.data).reverse = e.data.reverse ++ ' ' :: p.data.reverse := by
    simp
  unfold stripStr
  rw [hdata, dropWhile_eq_self_append _ _ hpne h1p, hrev,
    dropWhile_eq_self_append _ _ (by simpa using hene) h2e, ← hrev,
    List.reverse_reverse, ← hdata]

theorem pyTruthy_eq (o : Option String) : pyTruthy o = !(pyOrEmpty o).isEmpty := by
  cases o <;> rfl

theorem orDash_of_falsy (o : Option String) (h : pyTruthy o = false) : orDash o = "-" := by
  cases o with
  | none => rfl
  | some s =>
    simp only [pyTruthy, Bool.not_eq_false'] at h
    simp [orDash, h]

theorem orDash_ne_empty (o : Option String) : (orDash o).isEmpty = false := by
  cases o with
  | none => rfl
  | some s =>
    simp only [orDash]
    split
    · rfl
    · next h => simpa using h

theorem contactLine_eq (r : Receipt)
    (hp : trimmed (pyOrEmpty r.org_phone) = true)
    (he : trimmed (pyOrEmpty r.org_email) = true) :
    contactLine r = joinSpace (contactCandidates r) := by
  unfold contactLine contactCandidates
  cases hP : (pyOrEmpty r.org_phone).isEmpty <;> cases hE : (pyOrEmpty r.org_email).isEmpty
  · simp only [List.filter, hP, hE, Bool.not_false]
    exact stripStr_append_pair _ _ hp he
      (data_ne_nil_of_not_isEmpty _ hP) (data_ne_nil_of_not_isEmpty _ hE)
  · simp only [List.filter, hP, hE, Bool.not_false, Bool.not_true]
    exact stripStr_of_trimmed _ hp
  · simp only [List.filter, hP, hE, Bool.not_false, Bool.not_true]
    exact stripStr_of_trimmed _ he
  · simp only [List.filter, hP, hE, Bool.not_true]
    rfl

theorem isEmpty_false_of_data_ne_nil (s : String) (h : s.data ≠ []) : s.isEmpty = false := by
  rw [Bool.eq_false_iff]
  intro h1
  have hs : s = "" := (String.isEmpty_iff s).mp h1
  subst hs
  exact h rfl

theorem pyOrEmpty_isEmpty_of_falsy (o : Option String) (h : pyTruthy o = false) :
    (pyOrEmpty o).isEmpty = true := by
  rw [pyTruthy_eq] at h
  simpa using h

theorem contactCandidates_nil (r : Receipt)
    (hop : pyTruthy r.org_phone = false) (hoe : pyTruthy r.org_email = false) :
    contactCandidates r = [] := by
  simp [contactCandidates, List.filter,
    pyOrEmpty_isEmpty_of_falsy _ hop, pyOrEmpty_isEmpty_of_falsy _ hoe]

theorem orgMetaParagraph_none (r : Receipt)
    (hoa : pyTruthy r.org_address = false)
    (hop : pyTruthy r.org_phone = false)
    (hoe : pyTruthy r.org_email = false) :
    orgMetaParagraph r = none := by
  have hcl : contactLine r = "" := by
    rw [contactLine, contactCandidates_nil r hop hoe]
    rfl
  have hlines : orgMetaLines r = [] := by
    unfold orgMetaLines
    rw [hoa, hcl]
    simp [show ("" : String).isEmpty = true from rfl]
  unfold orgMetaParagraph
  rw [hlines]


/-! The claim theorems. -/

/-- Claim C4 (confirmed): for every receipt record the rendered line-item
table consists of the header row "Sl. No" / "Particulars" / "Amount (INR)"
followed by exactly one data row — never zero, never more than one — whose
index cell is the literal "1", whose second cell is the record's item
description and whose third cell is the formatted amount. -/
theorem C4_line_item_table (r : Receipt) :
    lineItemRows r =
      [["Sl. No", "Particulars", "Amount (INR)"],
       ["1", r.item_desc, fmtComma2 r.amount]] ∧
    (lineItemRows r).length = 2 ∧
    Elem.table (lineItemRows r) [some (20 * mm), none, some (40 * mm)] lineItemTableStyle
      ∈ renderElems r := by
  refine ⟨rfl, rfl, ?_⟩
  unfold renderElems
  simp

/-- Claim C6 (confirmed): rendering is deterministic — the handler, with its
ambient wall clock made explicit, produces the same response whatever the
clock reads, so two invocations on an identical record give byte-for-byte
identical output; the only timestamp-derived text is the meta-table date
cell, computed from the record's own creation timestamp. -/
theorem C6_deterministic :
    (∀ (now₁ now₂ : PyDateTime) (lookup : Int → Option Receipt) (rid : Int),
      receipt_pdfAt now₁ lookup rid = receipt_pdfAt now₂ lookup rid) ∧
    (∀ r : Receipt, metaTableRows r =
      [["Receipt Date", strftimeYmdHM r.created_at],
       ["Registration No.", orDash r.registration_no]]) :=
  ⟨fun _ _ _ _ => rfl, fun _ => rfl⟩

/-- Claim C9 (confirmed): for an identifier with no stored receipt the PDF
export never reaches the renderer and delivers no file: both the PDF route
and the preview route redirect back to the listing view flashing
"Receipt not found.". -/
theorem C9_not_found (now : PyDateTime) (lookup : Int → Option Receipt) (rid : Int)
    (h : lookup rid = none) :
    receipt_pdfAt now lookup rid = .redirect "index" [("Receipt not found.", "error")] ∧
    (receipt_pdfAt now lookup rid).isFile = false ∧
    preview lookup rid = .redirect "index" [("Receipt not found.", "error")] := by
  refine ⟨?_, ?_, ?_⟩ <;> simp [receipt_pdfAt, preview, h, Response.isFile]

/-- Witness for C9 at the empty record store. -/
theorem C9_witness :
    ((fun _ : Int => (none : Option Receipt)) 1 = none) ∧
    (receipt_pdfAt epoch (fun _ => none) 1
        = .redirect "index" [("Receipt not found.", "error")] ∧
      (receipt_pdfAt epoch (fun _ => none) 1).isFile = false ∧
      preview (fun _ => none) 1 = .redirect "index" [("Receipt not found.", "error")]) :=
  ⟨rfl, C9_not_found epoch (fun _ => none) 1 rfl⟩

/-- Claim C1 (counterexample): a stored record with an empty organization name
and an empty client name is still rendered — the PDF export succeeds and
streams non-empty bytes instead of failing; no MissingRequiredFieldError
exists anywhere in the code. -/
theorem C1_counterexample :
    rNoName.org_name = "" ∧ rNoName.name = "" ∧
    (receipt_pdf (fun _ => some rNoName) 7).isFile = true ∧
    (receipt_pdf (fun _ => some rNoName) 7).bytes ≠ [] := by
  refine ⟨rfl, rfl, rfl, ?_⟩
  show buildPDF docTemplate (renderElems rNoName) ≠ []
  simp [buildPDF]

/-- Claim C1 (corrected): the renderer performs no required-field validation —
the export succeeds and produces output bytes for any stored record, even one
with empty organization and client names; empty names are instead rejected
before a record exists: `create` refuses an empty stripped client name and
`setup_post` refuses an empty stripped organization name. -/
theorem C1_amended_no_render_validation
    (lookup : Int → Option Receipt) (rid : Int) (r : Receipt)
    (cform sform : String → Option String) (cfg : Config)
    (newId : Int) (now now2 : PyDateTime)
    (hr : lookup rid = some r)
    (hcfg : cfg.entries.isEmpty = false)
    (hname : stripStr ((cform "name").getD "") = "")
    (horg : stripStr ((sform "org_name").getD "") = "") :
    (receipt_pdfAt now lookup rid).isFile = true ∧
    (receipt_pdfAt now lookup rid).bytes ≠ [] ∧
    create cfg cform newId now2 = CreateResult.redirectIndex "Name is required." ∧
    setup_post sform
      = SetupResult.redirectSetupError "Organization/Clinic name is required." := by
  refine ⟨?_, ?_, ?_, ?_⟩
  · simp [receipt_pdfAt, hr, Response.isFile]
  · simp [receipt_pdfAt, hr, Response.bytes, buildPDF]
  · simp [create, hcfg, builtReceipt, hname]
    decide
  · simp [setup_post, horg]
    decide

/-- Witness for the amended C1 at a concrete store, form and configuration. -/
theorem C1_amended_witness :
    ((fun _ : Int => some rNoName) 7 = some rNoName) ∧
    cfgEx.entries.isEmpty = false ∧
    stripStr (((fun _ : String => (none : Option String)) "name").getD "") = "" ∧
    ((receipt_pdfAt epoch (fun _ => some rNoName) 7).isFile = true ∧
      (receipt_pdfAt epoch (fun _ => some rNoName) 7).bytes ≠ [] ∧
      create cfgEx (fun _ => none) 1 epoch = CreateResult.redirectIndex "Name is required." ∧
      setup_post (fun _ => none)
        = SetupResult.redirectSetupError "Organization/Clinic name is required.") :=
  ⟨rfl, rfl, rfl,
    C1_amended_no_render_validation (fun _ => some rNoName) 7 rNoName
      (fun _ => none) (fun _ => none) cfgEx 1 epoch epoch rfl rfl rfl rfl⟩

/-- Claim C8 (counterexample): a form submission with age "-5" is accepted —
`create` saves a receipt whose age is the negative integer -5. -/
theorem C8_counterexample :
    ∃ r : Receipt,
      create cfgEx formNegAge 1 epoch = CreateResult.saved r "Receipt saved." ∧
      r.age = some (-5) ∧ (-5 : Int) < 0 :=
  ⟨builtReceipt cfgEx formNegAge 1 epoch, rfl, by decide, by decide⟩

/-- Claim C8 (corrected): the stored age is exactly what Python int() parses
from the submitted value — absent when the value is missing or unparsable —
but any parsable integer, including a negative one, is stored unchanged: no
non-negativity check exists anywhere between form and store. -/
theorem C8_amended_age_unvalidated (cfg : Config) (form : String → Option String)
    (newId : Int) (now : PyDateTime) (s : String) (hs : form "age" = some s) :
    (builtReceipt cfg form newId now).age = to_int (form "age") ∧
    (builtReceipt cfg form newId now).age = pyIntParse s ∧
    pyIntParse "-5" = some (-5) ∧
    pyIntParse "x" = none := by
  refine ⟨rfl, ?_, by decide, by decide⟩
  simp [builtReceipt, to_int, hs]

/-- Witness for the amended C8 at the concrete negative-age form. -/
theorem C8_amended_witness :
    formNegAge "age" = some "-5" ∧
    ((builtReceipt cfgEx formNegAge 1 epoch).age = to_int (formNegAge "age") ∧
      (builtReceipt cfgEx formNegAge 1 epoch).age = pyIntParse "-5" ∧
      pyIntParse "-5" = some (-5) ∧
      pyIntParse "x" = none) :=
  ⟨rfl, C8_amended_age_unvalidated cfgEx formNegAge 1 epoch "-5" rfl⟩

/-- Claim C10 (confirmed): `create` never fails on malformed numeric input —
when the submitted amount and paid amount fail to parse as numbers the
receipt is created with those fields 0.0, when the age fails to parse as an
integer it is stored absent, and the submission still succeeds with the
success flash; the parse errors are silently absorbed. -/
theorem C10_parse_fallback (cfg : Config) (form : String → Option String)
    (newId : Int) (now : PyDateTime) (s t u : String)
    (hcfg : cfg.entries.isEmpty = false)
    (hname : (stripStr ((form "name").getD "")).isEmpty = false)
    (hs : form "amount" = some s) (hfs : pyFloatParse s = none)
    (ht : form "paid_amount" = some t) (hft : pyFloatParse t = none)
    (hu : form "age" = some u) (hfu : pyIntParse u = none) :
    create cfg form newId now
      = CreateResult.saved (builtReceipt cfg form newId now) "Receipt saved." ∧
    (builtReceipt cfg form newId now).amount = 0 ∧
    (builtReceipt cfg form newId now).paid_amount = 0 ∧
    (builtReceipt cfg form newId now).age = none := by
  refine ⟨?_, ?_, ?_, ?_⟩
  · simp [create, hcfg, builtReceipt, hname]
  · simp [builtReceipt, to_float, hs, hfs]
  · simp [builtReceipt, to_float, ht, hft]
  · simp [builtReceipt, to_int, hu, hfu]

/-- Witness for C10 at the concrete malformed-numeric form. -/
theorem C10_witness :
    cfgEx.entries.isEmpty = false ∧
    (stripStr ((formBadNums "name").getD "")).isEmpty = false ∧
    formBadNums "amount" = some "abc" ∧ pyFloatParse "abc" = none ∧
    formBadNums "paid_amount" = some "12,5" ∧ pyFloatParse "12,5" = none ∧
    formBadNums "age" = some "old" ∧ pyIntParse "old" = none ∧
    (create cfgEx formBadNums 1 epoch
        = CreateResult.saved (builtReceipt cfgEx formBadNums 1 epoch) "Receipt saved." ∧
      (builtReceipt cfgEx formBadNums 1 epoch).amount = 0 ∧
      (builtReceipt cfgEx formBadNums 1 epoch).paid_amount = 0 ∧
      (builtReceipt cfgEx formBadNums 1 epoch).age = none) :=
  ⟨rfl, by decide, rfl, by decide, rfl, by decide, rfl, by decide,
    C10_parse_fallback cfgEx formBadNums 1 epoch "abc" "12,5" "old"
      rfl (by decide) rfl (by decide) rfl (by decide) rfl (by decide)⟩

/-- Claim C7 (counterexample): not every table is top-aligned — the document
meta table's only `VALIGN` command is `MIDDLE`, the line-item table and the
totals block set no vertical alignment at all, and the totals block carries
no bounding box either. -/
theorem C7_counterexample :
    (StyleCmd.valign ⟨0, 0, -1, -1⟩ "MIDDLE" ∈ metaTableStyle) ∧
    metaTableStyle.filter StyleCmd.isValign = [.valign ⟨0, 0, -1, -1⟩ "MIDDLE"] ∧
    lineItemTableStyle.filter StyleCmd.isValign = [] ∧
    totalsTableStyle.filter StyleCmd.isValign = [] ∧
    totalsTableStyle.filter StyleCmd.isBox = [] := by
  refine ⟨?_, rfl, rfl, rfl, rfl⟩
  simp [metaTableStyle]

/-- Claim C7 (corrected): only the client details table is top-aligned; the
document meta table is middle-aligned, the line-item table and the totals
block set no vertical alignment; the meta, client and line-item tables each
have a bounding box and a lighter 0.25-weight interior grid, while the
totals block has neither. -/
theorem C7_amended_styles :
    clientTableStyle.filter StyleCmd.isValign = [.valign ⟨0, 0, -1, -1⟩ "TOP"] ∧
    metaTableStyle.filter StyleCmd.isValign = [.valign ⟨0, 0, -1, -1⟩ "MIDDLE"] ∧
    lineItemTableStyle.filter StyleCmd.isValign = [] ∧
    totalsTableStyle.filter StyleCmd.isValign = [] ∧
    (StyleCmd.box ⟨0, 0, -1, -1⟩ (0.4 : ℚ) "black" ∈ metaTableStyle) ∧
    (StyleCmd.box ⟨0, 0, -1, -1⟩ (0.5 : ℚ) "black" ∈ clientTableStyle) ∧
    (StyleCmd.box ⟨0, 0, -1, -1⟩ (0.7 : ℚ) "black" ∈ lineItemTableStyle) ∧
    (StyleCmd.innergrid ⟨0, 0, -1, -1⟩ (0.25 : ℚ) "grey" ∈ metaTableStyle) ∧
    (StyleCmd.innergrid ⟨0, 0, -1, -1⟩ (0.25 : ℚ) "grey" ∈ clientTableStyle) ∧
    (StyleCmd.innergrid ⟨0, 0, -1, -1⟩ (0.25 : ℚ) "grey" ∈ lineItemTableStyle) ∧
    totalsTableStyle.filter StyleCmd.isBox = [] ∧
    totalsTableStyle.filter StyleCmd.isInnerGrid = [] := by
  refine ⟨rfl, rfl, rfl, rfl, ?_, ?_, ?_, ?_, ?_, ?_, rfl, rfl⟩ <;>
    simp [metaTableStyle, clientTableStyle, lineItemTableStyle]

/-- Claim C2 (counterexample): the placeholder law does not extend to the
organization snapshot fields — on a record whose organization address, phone
and email are all unset but whose client fields are all populated, the meta
paragraph is omitted outright and no paragraph or table cell of the document
equals "-". -/
theorem C2_counterexample :
    pyTruthy rOrgUnset.org_address = false ∧
    pyTruthy rOrgUnset.org_phone = false ∧
    pyTruthy rOrgUnset.org_email = false ∧
    orgMetaParagraph rOrgUnset = none ∧
    "-" ∉ allTexts (renderElems rOrgUnset) :=
  ⟨rfl, rfl, rfl, by decide, by decide⟩

/-- Claim C2 (corrected): the "-" placeholder law holds for the registration
number and for every optional client field — with all of them unset every
corresponding value cell renders as "-" and an optional-field cell is never
empty — but the organization snapshot fields (address, phone, email) are
omitted rather than placeheld: with all three unset the whole meta paragraph
disappears from the document. -/
theorem C2_amended_placeholders (r : Receipt)
    (hgu : pyTruthy r.guardian = false) (hge : pyTruthy r.gender = false)
    (hag : r.age = none) (had : pyTruthy r.address = false)
    (hph : pyTruthy r.phone = false) (hco : pyTruthy r.consultant = false)
    (hrg : pyTruthy r.registration_no = false)
    (hoa : pyTruthy r.org_address = false)
    (hop : pyTruthy r.org_phone = false)
    (hoe : pyTruthy r.org_email = false) :
    clientTableRows r =
      [["Name", r.name], ["Guardian", "-"], ["Gender", "-"], ["Age", "-"],
       ["Address", "-"], ["Phone", "-"], ["Consultant", "-"]] ∧
    metaTableRows r =
      [["Receipt Date", strftimeYmdHM r.created_at], ["Registration No.", "-"]] ∧
    orgMetaParagraph r = none ∧
    (∀ o : Option String, (orDash o).isEmpty = false) := by
  refine ⟨?_, ?_, orgMetaParagraph_none r hoa hop hoe, orDash_ne_empty⟩
  · unfold clientTableRows
    rw [orDash_of_falsy _ hgu, orDash_of_falsy _ hge, orDash_of_falsy _ had,
      orDash_of_falsy _ hph, orDash_of_falsy _ hco, hag]
    rfl
  · unfold metaTableRows
    rw [orDash_of_falsy _ hrg]

/-- Witness for the amended C2 at a record with every optional field unset. -/
theorem C2_amended_witness :
    (pyTruthy rAllUnset.guardian = false ∧ pyTruthy rAllUnset.gender = false ∧
      rAllUnset.age = none ∧ pyTruthy rAllUnset.address = false ∧
      pyTruthy rAllUnset.phone = false ∧ pyTruthy rAllUnset.consultant = false ∧
      pyTruthy rAllUnset.registration_no = false ∧
      pyTruthy rAllUnset.org_address = false ∧
      pyTruthy rAllUnset.org_phone = false ∧
      pyTruthy rAllUnset.org_email = false) ∧
    (clientTableRows rAllUnset =
        [["Name", rAllUnset.name], ["Guardian", "-"], ["Gender", "-"], ["Age", "-"],
         ["Address", "-"], ["Phone", "-"], ["Consultant", "-"]] ∧
      metaTableRows rAllUnset =
        [["Receipt Date", strftimeYmdHM rAllUnset.created_at], ["Registration No.", "-"]] ∧
      orgMetaParagraph rAllUnset = none ∧
      (∀ o : Option String, (orDash o).isEmpty = false)) :=
  ⟨⟨rfl, rfl, rfl, rfl, rfl, rfl, rfl, rfl, rfl, rfl⟩,
    C2_amended_placeholders rAllUnset rfl rfl rfl rfl rfl rfl rfl rfl rfl rfl⟩

/-- Claim C3 (confirmed): for every receipt record (amounts are non-negative
per the data model) the line-item amount cell is the amount rendered with
thousands grouping and exactly two fractional digits and no currency prefix,
and the totals cell is the paid amount rendered the same way prefixed with
the literal "INR " — that prefix appears on the totals line only; in
particular 1234.5 renders as "1,234.50" and a zero paid amount renders as
"INR 0.00". -/
theorem C3_numeric_format (r : Receipt) (ha : 0 ≤ r.amount) (hp : 0 ≤ r.paid_amount) :
    lineItemRows r =
      [["Sl. No", "Particulars", "Amount (INR)"],
       ["1", r.item_desc, fmtComma2 r.amount]] ∧
    totalsRows r = [["Paid Amount", "INR " ++ fmtComma2 r.paid_amount]] ∧
    groupedTwoDecimals (fmtComma2 r.amount) ∧
    groupedTwoDecimals (fmtComma2 r.paid_amount) ∧
    fmtComma2 (1234.5 : ℚ) = "1,234.50" ∧
    "INR " ++ fmtComma2 (0 : ℚ) = "INR 0.00" := by
  refine ⟨rfl, rfl, fmtComma2_grouped _ ha, fmtComma2_grouped _ hp, ?_, by decide⟩
  have h : (1234.5 : ℚ) = ⟨2469, 2, by decide, by decide⟩ := by
    rw [Rat.mk'_eq_divInt, Rat.divInt_eq_div]
    norm_num
  rw [h]
  decide

/-- Witness for C3 at a record with non-negative concrete amounts. -/
theorem C3_witness :
    (0 : ℚ) ≤ rOrgUnset.amount ∧ (0 : ℚ) ≤ rOrgUnset.paid_amount ∧
    (lineItemRows rOrgUnset =
        [["Sl. No", "Particulars", "Amount (INR)"],
         ["1", rOrgUnset.item_desc, fmtComma2 rOrgUnset.amount]] ∧
      totalsRows rOrgUnset = [["Paid Amount", "INR " ++ fmtComma2 rOrgUnset.paid_amount]] ∧
      groupedTwoDecimals (fmtComma2 rOrgUnset.amount) ∧
      groupedTwoDecimals (fmtComma2 rOrgUnset.paid_amount) ∧
      fmtComma2 (1234.5 : ℚ) = "1,234.50" ∧
      "INR " ++ fmtComma2 (0 : ℚ) = "INR 0.00") :=
  ⟨by decide, by decide, C3_numeric_format rOrgUnset (by decide) (by decide)⟩

/-- Claim C5 (confirmed): the header meta paragraph composition — when the
organization address is set it appears first with its newlines preserved as
line breaks (the "<br/>" encoding); when at least one of phone and email is
set a single contact line appears, equal to the space-join of whichever are
set; and when address, phone and email are all absent the entire meta
paragraph is omitted.  Phone and email carry no edge whitespace, as
`setup_post` saves them stripped. -/
theorem C5_meta_paragraph (r : Receipt)
    (hp : trimmed (pyOrEmpty r.org_phone) = true)
    (he : trimmed (pyOrEmpty r.org_email) = true) :
    (pyTruthy r.org_address = true →
      (orgMetaLines r).head? =
        some ((pyOrEmpty r.org_address).replace "\n" "<br/>")) ∧
    ((pyTruthy r.org_phone || pyTruthy r.org_email) = true →
      contactLine r = joinSpace (contactCandidates r) ∧
      joinSpace (contactCandidates r) ∈ orgMetaLines r) ∧
    (pyTruthy r.org_address = false → pyTruthy r.org_phone = false →
      pyTruthy r.org_email = false → orgMetaParagraph r = none) := by
  refine ⟨?_, ?_, fun hoa hop hoe => orgMetaParagraph_none r hoa hop hoe⟩
  · intro haddr
    simp [orgMetaLines, haddr]
  · intro hor
    have hceq := contactLine_eq r hp he
    have hne : (joinSpace (contactCandidates r)).isEmpty = false := by
      rw [pyTruthy_eq, pyTruthy_eq] at hor
      cases hP : (pyOrEmpty r.org_phone).isEmpty <;>
        cases hE : (pyOrEmpty r.org_email).isEmpty
      · simp only [contactCandidates, List.filter, hP, hE, Bool.not_false]
        refine isEmpty_false_of_data_ne_nil _ ?_
        simp [joinSpace]
      · simp only [contactCandidates, List.filter, hP, hE, Bool.not_false, Bool.not_true]
        exact hP
      · simp only [contactCandidates, List.filter, hP, hE, Bool.not_false, Bool.not_true]
        exact hE
      · rw [hP, hE] at hor
        simp at hor
    refine ⟨hceq, ?_⟩
    have hclne : (contactLine r).isEmpty = false := by rw [hceq]; exact hne
    unfold orgMetaLines
    rw [hclne, ← hceq]
    simp

/-- Witness for C5 at a record with address, phone and email all populated. -/
theorem C5_witness :
    trimmed (pyOrEmpty rOrgSet.org_phone) = true ∧
    trimmed (pyOrEmpty rOrgSet.org_email) = true ∧
    ((pyTruthy rOrgSet.org_address = true →
        (orgMetaLines rOrgSet).head? =
          some ((pyOrEmpty rOrgSet.org_address).replace "\n" "<br/>")) ∧
      ((pyTruthy rOrgSet.org_phone || pyTruthy rOrgSet.org_email) = true →
        contactLine rOrgSet = joinSpace (contactCandidates rOrgSet) ∧
        joinSpace (contactCandidates rOrgSet) ∈ orgMetaLines rOrgSet) ∧
      (pyTruthy rOrgSet.org_address = false → pyTruthy rOrgSet.org_phone = false →
        pyTruthy rOrgSet.org_email = false → orgMetaParagraph rOrgSet = none)) :=
  ⟨by decide, by decide, C5_meta_paragraph rOrgSet (by decide) (by decide)⟩

end ReceiptApp
